import Mathlib

/-!
Verification of the pyfred output-contract layer and packaging CLI.

The repository ships a packaging CLI (`pyfred/cli.py`) and an output-contract
layer (`pyfred/model.py`, `pyfred/workflow.py`).  The output-contract modules
are not present in the source tree that accompanies this development (only
their tests are), so their data model, encoder and runners are modelled here
from the specification, anchored by the expected values in
`tests/test_workflow.py` and `tests/test_cli.py`.  The CLI helpers
(`_must_be_run_from_workflow_project_root`, `_ensure_no_local_changes`,
`find_workflow_link`, `_link`) are embedded directly from `pyfred/cli.py`.
-/

namespace Pyfred

/-- Numeric wire values.  Modelled from the spec: the encoder of
`pyfred/model.py` is missing from the source tree; the spec requires that
"numeric fields preserve the caller's numeric form", so an integer-shaped
number and a float-shaped number (integer part plus fractional digits) are
kept distinct all the way to the rendered token. -/
inductive JNum where
  | int (i : Int)
  | float (ip : Int) (fp : Nat)
deriving DecidableEq, Repr

/-- Render a numeric wire value; a float-shaped number keeps its decimal
point (`2.0` stays `2.0`, it never collapses to `2`). -/
def renderNum : JNum → String
  | .int i => toString i
  | .float ip fp => toString ip ++ "." ++ toString fp

mutual
/-- A JSON-like document tree: the wire form consumed by the host. -/
inductive JValue where
  | null : JValue
  | bool (b : Bool) : JValue
  | num (n : JNum) : JValue
  | str (s : String) : JValue
  | arr (elems : JArr) : JValue
  | obj (fields : JObj) : JValue

/-- A JSON array, as its own inductive so that rendering is structural. -/
inductive JArr where
  | nil : JArr
  | cons (hd : JValue) (tl : JArr) : JArr

/-- A JSON object: an ordered list of key/value fields. -/
inductive JObj where
  | nil : JObj
  | cons (key : String) (val : JValue) (tl : JObj) : JObj
end

/-- Escape one character of a JSON string literal. -/
def escChar (c : Char) : String :=
  if c = '"' then "\\\"" else if c = '\\' then "\\\\" else String.singleton c

/-- Render a JSON string literal with surrounding quotes. -/
def jstr (s : String) : String :=
  "\"" ++ String.join (s.data.map escChar) ++ "\""

mutual
/-- Serialise a document to text, with the separators used by the reference
serialiser (`", "` between entries, `": "` after a key). -/
def render : JValue → String
  | .null => "null"
  | .bool true => "true"
  | .bool false => "false"
  | .num n => renderNum n
  | .str s => jstr s
  | .arr es => "[" ++ renderArr es ++ "]"
  | .obj fs => "\x7b" ++ renderObj fs ++ "\x7d"

/-- Serialise the elements of an array, comma separated. -/
def renderArr : JArr → String
  | .nil => ""
  | .cons v .nil => render v
  | .cons v tl => render v ++ ", " ++ renderArr tl

/-- Serialise the fields of an object, comma separated. -/
def renderObj : JObj → String
  | .nil => ""
  | .cons k v .nil => jstr k ++ ": " ++ render v
  | .cons k v tl => jstr k ++ ": " ++ render v ++ ", " ++ renderObj tl
end

/-- The keys of a JSON object, in order. -/
def jKeys : JObj → List String
  | .nil => []
  | .cons k _ tl => k :: jKeys tl

/-- Append an optional field to an object: an absent value contributes no
key at all (never a null or empty placeholder). -/
def optField (k : String) (v : Option JValue) (rest : JObj) : JObj :=
  match v with
  | none => rest
  | some j => .cons k j rest

/-- Modelled from the spec: `Icon` of the missing `pyfred/model.py` — a
tagged union with exactly two variants, one per named constructor
(`Icon.uti`, `Icon.file_icon`); both populated at once is unrepresentable. -/
inductive Icon where
  | uti (typeIdentifier : String)
  | file_icon (path : String)
deriving DecidableEq, Repr

/-- Modelled from the spec: the two icon variants render under mutually
exclusive shapes — the by-file variant as a file-icon descriptor with a
`path` field, the by-type-identifier variant as a type descriptor. -/
def encodeIconObj : Icon → JObj
  | .uti t => .cons "type" (.str t) .nil
  | .file_icon p => .cons "path" (.str p) (.cons "type" (.str "fileicon") .nil)

/-- Encode an icon reference as a JSON object. -/
def encodeIcon (i : Icon) : JValue := .obj (encodeIconObj i)

/-- Modelled from the spec: `Key` of the missing `pyfred/model.py`, the
closed modifier-key vocabulary (singles plus fixed combinations). -/
inductive Key where
  | Cmd | Alt | Ctrl | Shift | Fn | CmdAlt
deriving DecidableEq, Repr

/-- The encoder-owned token table for modifier keys. -/
def keyToken : Key → String
  | .Cmd => "cmd"
  | .Alt => "alt"
  | .Ctrl => "ctrl"
  | .Shift => "shift"
  | .Fn => "fn"
  | .CmdAlt => "cmd+alt"

/-- Modelled from the spec: the result-type tag of an item
(default / file / skip-autocomplete variants); `Type` in the source. -/
inductive ResultType where
  | Default | File | FileSkipcheck
deriving DecidableEq, Repr

/-- The fixed tokens for the result-type tag. -/
def typeToken : ResultType → String
  | .Default => "default"
  | .File => "file"
  | .FileSkipcheck => "file:skipcheck"

/-- Modelled from the spec: `Data` of the missing `pyfred/model.py`, a
modifier override whose fields are all independently optional. -/
structure Data where
  subtitle : Option String := none
  arg : Option String := none
  icon : Option Icon := none
  valid : Option Bool := none
deriving DecidableEq, Repr

/-- Modelled from the spec: `Text` of the missing `pyfred/model.py` —
optional large-type text and optional copy text. -/
structure Text where
  large_type : Option String := none
  copy : Option String := none
deriving DecidableEq, Repr

/-- Modelled from the spec: `CacheConfig` of the missing `pyfred/model.py` —
a duration in seconds plus an optional relaxed-reload flag. -/
structure CacheConfig where
  seconds : JNum
  loosereload : Option Bool := none
deriving DecidableEq, Repr

/-- Modelled from the spec: `OutputItem` of the missing `pyfred/model.py`.
`title` is required; every other field is optional (`matchText` embeds the
source's `match` field, `typ` its `type` field, defaulting to the
"default" tag). -/
structure OutputItem where
  title : String
  subtitle : Option String := none
  uid : Option String := none
  icon : Option Icon := none
  valid : Option Bool := none
  matchText : Option String := none
  autocomplete : Option String := none
  mods : Option (List (Key × Data)) := none
  text : Option Text := none
  quicklookurl : Option String := none
  typ : ResultType := .Default
  arg : Option String := none
deriving Repr

/-- Modelled from the spec: `ScriptFilterOutput` of the missing
`pyfred/model.py` (the response envelope): ordered items, optional re-run
interval, optional session variables (the source's `variables` field,
here `vars` since `variables` is reserved), optional cache directive. -/
structure ScriptFilterOutput where
  items : List OutputItem
  rerun : Option JNum := none
  vars : Option (List (String × JValue)) := none
  cache : Option CacheConfig := none

/-- Encode a modifier override; absent fields are omitted. -/
def encodeData (d : Data) : JValue :=
  .obj (optField "subtitle" (d.subtitle.map .str)
       (optField "arg" (d.arg.map .str)
       (optField "icon" (d.icon.map encodeIcon)
       (optField "valid" (d.valid.map .bool) .nil))))

/-- Encode the text overrides; absent fields are omitted. -/
def encodeText (t : Text) : JValue :=
  .obj (optField "largetype" (t.large_type.map .str)
       (optField "copy" (t.copy.map .str) .nil))

/-- Encode a modifier map under the fixed key tokens, order preserved. -/
def encodeMods : List (Key × Data) → JObj
  | [] => .nil
  | (k, d) :: tl => .cons (keyToken k) (encodeData d) (encodeMods tl)

/-- Modelled from the spec: encoding of one item by the missing encoder of
`pyfred/model.py` / `pyfred/workflow.py`.  Only present fields are emitted;
`title` and the result-type tag (defaulting to "default") always appear. -/
def encodeItemObj (i : OutputItem) : JObj :=
  .cons "title" (.str i.title)
  (optField "subtitle" (i.subtitle.map .str)
  (optField "uid" (i.uid.map .str)
  (optField "icon" (i.icon.map encodeIcon)
  (optField "valid" (i.valid.map .bool)
  (optField "match" (i.matchText.map .str)
  (optField "autocomplete" (i.autocomplete.map .str)
  (optField "mods" (i.mods.map (fun ms => .obj (encodeMods ms)))
  (optField "text" (i.text.map encodeText)
  (optField "quicklookurl" (i.quicklookurl.map .str)
  (.cons "type" (.str (typeToken i.typ))
  (optField "arg" (i.arg.map .str) .nil)))))))))))

/-- Encode one item as a JSON object. -/
def encodeItem (i : OutputItem) : JValue := .obj (encodeItemObj i)

/-- Encode the item sequence in display order. -/
def encodeItems : List OutputItem → JArr
  | [] => .nil
  | i :: tl => .cons (encodeItem i) (encodeItems tl)

/-- Turn an association list of session variables into a JSON object. -/
def objOfList : List (String × JValue) → JObj
  | [] => .nil
  | (k, v) :: tl => .cons k v (objOfList tl)

/-- Encode a cache directive: always `seconds`, `loosereload` only when set. -/
def encodeCache (c : CacheConfig) : JValue :=
  .obj (.cons "seconds" (.num c.seconds)
       (optField "loosereload" (c.loosereload.map .bool) .nil))

/-- Modelled from the spec: top-level encoding of the response envelope by
the missing encoder — `items` always present; `rerun`, `variables`, `cache`
only when set. -/
def encodeOutputObj (o : ScriptFilterOutput) : JObj :=
  .cons "items" (.arr (encodeItems o.items))
  (optField "rerun" (o.rerun.map .num)
  (optField "variables" (o.vars.map (fun vs => .obj (objOfList vs)))
  (optField "cache" (o.cache.map encodeCache) .nil)))

/-- Encode a response envelope as a JSON document. -/
def encodeOutput (o : ScriptFilterOutput) : JValue := .obj (encodeOutputObj o)

/-- Modelled from the spec: `Environment` of the missing `pyfred/model.py` —
the immutable snapshot of the host's environment variables.  Path-valued
fields carry the raw string unmodified, so they are plain strings here. -/
structure Environment where
  debug : Bool
  preferences_file : String
  preferences_localhash : String
  version : String
  version_build : String
  workflow_name : String
  workflow_version : String
  workflow_bundleid : String
  workflow_uid : String
  workflow_cache : String
  workflow_data : String
  theme : String
  theme_background : String
  theme_selection_background : String
  theme_subtext : String
  workflow_description : String
  workflow_keyword : String
deriving DecidableEq, Repr

/-- Modelled from the spec: construction of the snapshot from the process
environment (an association list of variable/value pairs).  The debug flag
is true only when `alfred_debug` is exactly "1"; every other field takes
its variable's value, or the empty string when the variable is unset —
there is no missing-required-variable failure mode. -/
def makeEnvironment (e : List (String × String)) : Environment where
  debug := e.lookup "alfred_debug" == some "1"
  preferences_file := (e.lookup "alfred_preferences").getD ""
  preferences_localhash := (e.lookup "alfred_preferences_localhash").getD ""
  version := (e.lookup "alfred_version").getD ""
  version_build := (e.lookup "alfred_version_build").getD ""
  workflow_name := (e.lookup "alfred_workflow_name").getD ""
  workflow_version := (e.lookup "alfred_workflow_version").getD ""
  workflow_bundleid := (e.lookup "alfred_workflow_bundleid").getD ""
  workflow_uid := (e.lookup "alfred_workflow_uid").getD ""
  workflow_cache := (e.lookup "alfred_workflow_cache").getD ""
  workflow_data := (e.lookup "alfred_workflow_data").getD ""
  theme := (e.lookup "alfred_theme").getD ""
  theme_background := (e.lookup "alfred_theme_background").getD ""
  theme_selection_background := (e.lookup "alfred_theme_selection_background").getD ""
  theme_subtext := (e.lookup "alfred_theme_subtext").getD ""
  workflow_description := (e.lookup "alfred_workflow_description").getD ""
  workflow_keyword := (e.lookup "alfred_workflow_keyword").getD ""

/-- Outcome of invoking the caller-supplied handler: a returned value, or a
raised error (any failure in handler, snapshot construction or encoding is
funnelled into `err`). -/
inductive HandlerOutcome (α : Type) where
  | ok (a : α)
  | err (msg : String)

/-- Modelled from the spec: the structured runner (`script_filter` of the
missing `pyfred/workflow.py`).  On success it writes exactly one encoded
document to standard output and exits 0; on any failure it writes nothing
to standard output and exits non-zero.  The result pair is
(standard-output bytes, exit status). -/
def script_filter (h : HandlerOutcome ScriptFilterOutput) : String × Nat :=
  match h with
  | .err _ => ("", 1)
  | .ok out => (render (encodeOutput out), 0)

/-- Result of a plain-text handler: a single string or a sequence. -/
inductive ExternalResult where
  | single (s : String)
  | many (xs : List String)

/-- Modelled from the spec: the plain-text runner (`external_script` of the
missing `pyfred/workflow.py`).  A sequence is joined with single ASCII
spaces in order; a single string is written verbatim; no envelope is
added.  Failure behaviour mirrors the structured runner. -/
def external_script (h : HandlerOutcome ExternalResult) : String × Nat :=
  match h with
  | .err _ => ("", 1)
  | .ok (.single s) => (s, 0)
  | .ok (.many xs) => (String.intercalate " " xs, 0)

/-!
CLI model, embedded from `pyfred/cli.py`.  A command's interaction with the
world is reduced to the facts the guards consult: whether
`cwd/Workflow/info.plist` exists and whether `git status -s` reports local
changes.  `exit(1)` is modelled as an `exited` outcome that short-circuits
the wrapped body.
-/

/-- The observable state a CLI guard consults: the working directory, a
file-existence predicate, and whether `git status -s` is non-empty. -/
structure CliState where
  cwd : String
  fileExists : String → Bool
  gitDirty : Bool

/-- `_info_plist_path`: `cwd/Workflow/info.plist` (cli.py lines 17-20). -/
def info_plist_path (s : CliState) : String := s.cwd ++ "/Workflow/info.plist"

/-- How a decorated CLI command ends: a process exit with a code, or normal
completion of the wrapped body. -/
inductive CmdOutcome where
  | exited (code : Nat)
  | completed
deriving DecidableEq, Repr

/-- `_must_be_run_from_workflow_project_root` (cli.py lines 39-51): run the
wrapped body only when `Workflow/info.plist` exists; otherwise log and
`exit(1)` without touching any state. -/
def must_be_run_from_workflow_project_root
    (fn : CliState → CmdOutcome × CliState) (s : CliState) : CmdOutcome × CliState :=
  if s.fileExists (info_plist_path s) then fn s else (.exited 1, s)

/-- `_ensure_no_local_changes` (cli.py lines 23-36): `exit(1)` when
`git status -s` reports changes, otherwise run the wrapped body. -/
def ensure_no_local_changes
    (fn : CliState → CmdOutcome × CliState) (s : CliState) : CmdOutcome × CliState :=
  if s.gitDirty then (.exited 1, s) else fn s

/-- An entry of Alfred's workflows directory: its name and, when the entry
is a symlink, its target (`none` = not a symlink). -/
structure DirEntry where
  name : String
  target : Option String
deriving DecidableEq, Repr

/-- `find_workflow_link` (cli.py lines 186-200): the first entry of the
workflows directory that is a symlink resolving to the target workflow
directory (paths are modelled post-`expanduser`). -/
def find_workflow_link (target : String) (ws : List DirEntry) : Option DirEntry :=
  ws.find? (fun e => e.target == some target)

/-- `_link` (cli.py lines 322-363) as a transformation of the workflows
directory listing.  `freshName` stands for the `uuid4()` the source draws
when it needs a new link name.  The final `source.exists()` re-check of the
source cannot fire here because `wf_dir` existence is guarded above the
creation. -/
def _link (relink same_path : Bool) (wfDirExists wfDirIsDir : Bool)
    (wfDir freshName : String) (ws : List DirEntry) : Except String (List DirEntry) :=
  if !wfDirExists then .error (wfDir ++ " doesn't exist")
  else if !wfDirIsDir then .error (wfDir ++ " is not a directory")
  else
    match find_workflow_link wfDir ws with
    | some existing =>
      if !relink then .ok ws
      else
        let ws1 := ws.eraseP (fun e => e.name == existing.name)
        let srcName := if same_path then existing.name else "user.workflow." ++ freshName
        .ok (ws1 ++ [⟨srcName, some wfDir⟩])
    | none => .ok (ws ++ [⟨"user.workflow." ++ freshName, some wfDir⟩])

/-!
Theorems for the claims.
-/

/-- Membership in the keys of an object extended with an optional field:
the key is there exactly when the field is present (or already in the rest). -/
theorem mem_jKeys_optField {k k' : String} {v : Option JValue} {rest : JObj} :
    k ∈ jKeys (optField k' v rest) ↔ (v.isSome ∧ k = k') ∨ k ∈ jKeys rest := by
  cases v <;> simp [optField, jKeys]

/-- Claim C1: the encoder omits every absent optional field — the key of an
unset optional field never appears in the object that owns it (top-level
envelope fields and per-item fields alike), and an item with only its
required title populated encodes to exactly a title plus the default type
tag, with no null or empty placeholder for anything else. -/
theorem encoder_omits_absent_optionals :
    (∀ o : ScriptFilterOutput,
      (o.rerun = none → "rerun" ∉ jKeys (encodeOutputObj o)) ∧
      (o.vars = none → "variables" ∉ jKeys (encodeOutputObj o)) ∧
      (o.cache = none → "cache" ∉ jKeys (encodeOutputObj o))) ∧
    (∀ i : OutputItem,
      (i.subtitle = none → "subtitle" ∉ jKeys (encodeItemObj i)) ∧
      (i.uid = none → "uid" ∉ jKeys (encodeItemObj i)) ∧
      (i.icon = none → "icon" ∉ jKeys (encodeItemObj i)) ∧
      (i.valid = none → "valid" ∉ jKeys (encodeItemObj i)) ∧
      (i.matchText = none → "match" ∉ jKeys (encodeItemObj i)) ∧
      (i.autocomplete = none → "autocomplete" ∉ jKeys (encodeItemObj i)) ∧
      (i.mods = none → "mods" ∉ jKeys (encodeItemObj i)) ∧
      (i.text = none → "text" ∉ jKeys (encodeItemObj i)) ∧
      (i.quicklookurl = none → "quicklookurl" ∉ jKeys (encodeItemObj i)) ∧
      (i.arg = none → "arg" ∉ jKeys (encodeItemObj i))) ∧
    (∀ t : String, encodeItem { title := t } =
      .obj (.cons "title" (.str t) (.cons "type" (.str "default") .nil))) := by
  refine ⟨fun o => ⟨?_, ?_, ?_⟩,
          fun i => ⟨?_, ?_, ?_, ?_, ?_, ?_, ?_, ?_, ?_, ?_⟩,
          fun t => rfl⟩ <;>
    (intro h; simp [encodeOutputObj, encodeItemObj, jKeys, mem_jKeys_optField, h])

/-- Witness for Claim C1 at concrete inputs: an envelope with nothing but
items has no "rerun" key, and a title-only item has no "subtitle" key. -/
theorem encoder_omits_absent_optionals_witness :
    "rerun" ∉ jKeys (encodeOutputObj { items := [] }) ∧
    "subtitle" ∉ jKeys (encodeItemObj { title := "A minimal item" }) :=
  ⟨(encoder_omits_absent_optionals.1 { items := [] }).1 rfl,
   (encoder_omits_absent_optionals.2.1 { title := "A minimal item" }).1 rfl⟩

/-- Claim C2: the envelope with one title-only item, rerun given as the
float 2.0 and a 10-second cache directive encodes to exactly the expected
document — the item holds only title and the default type token, rerun
keeps its float shape (the token "2.0", not "2"), cache holds only
seconds = 10, and no other key appears anywhere. -/
theorem minimal_envelope_exact_encoding :
    encodeOutput { items := [{ title := "Hello Alfred!" }],
                   rerun := some (.float 2 0),
                   cache := some { seconds := .int 10 } } =
      .obj (.cons "items"
              (.arr (.cons (.obj (.cons "title" (.str "Hello Alfred!")
                                 (.cons "type" (.str "default") .nil))) .nil))
           (.cons "rerun" (.num (.float 2 0))
           (.cons "cache" (.obj (.cons "seconds" (.num (.int 10)) .nil)) .nil))) ∧
    render (encodeOutput { items := [{ title := "Hello Alfred!" }],
                           rerun := some (.float 2 0),
                           cache := some { seconds := .int 10 } }) =
      "\x7b\"items\": [\x7b\"title\": \"Hello Alfred!\", \"type\": \"default\"\x7d], \"rerun\": 2.0, \"cache\": \x7b\"seconds\": 10\x7d\x7d" :=
  ⟨rfl, rfl⟩

/-- Claim C3: the snapshot's debug flag is true exactly when the
`alfred_debug` variable is the literal "1"; absence and every other value
give false. -/
theorem debug_flag_iff_literal_one :
    ∀ e : List (String × String),
      ((makeEnvironment e).debug = true ↔ e.lookup "alfred_debug" = some "1") ∧
      (e.lookup "alfred_debug" = none → (makeEnvironment e).debug = false) ∧
      (∀ v, v ≠ "1" → e.lookup "alfred_debug" = some v →
        (makeEnvironment e).debug = false) := by
  intro e
  refine ⟨by simp [makeEnvironment], fun h => by simp [makeEnvironment, h],
          fun v hv h => by simp [makeEnvironment, h, hv]⟩

/-- Witness for Claim C3 at concrete environments: "0" and absence both
yield a false debug flag, and "1" yields true. -/
theorem debug_flag_iff_literal_one_witness :
    (makeEnvironment [("alfred_debug", "0")]).debug = false ∧
    (makeEnvironment []).debug = false ∧
    (makeEnvironment [("alfred_debug", "1")]).debug = true :=
  ⟨(debug_flag_iff_literal_one [("alfred_debug", "0")]).2.2 "0" (by decide) rfl,
   (debug_flag_iff_literal_one []).2.1 rfl,
   (debug_flag_iff_literal_one [("alfred_debug", "1")]).1.mpr rfl⟩

/-- Claim C4: under the structured runner a failing handler produces zero
bytes on standard output and a non-zero exit status, and in every case
standard output is either empty or one complete encoded document. -/
theorem structured_runner_no_partial_output :
    ∀ h : HandlerOutcome ScriptFilterOutput,
      (∀ m, h = .err m → script_filter h = ("", 1)) ∧
      (((script_filter h).1 = "" ∧ (script_filter h).2 ≠ 0) ∨
        ∃ out, h = .ok out ∧ script_filter h = (render (encodeOutput out), 0)) := by
  intro h
  cases h <;> simp [script_filter]

/-- Witness for Claim C4: a concrete handler failure writes nothing and
exits 1. -/
theorem structured_runner_no_partial_output_witness :
    script_filter (.err "handler raised") = ("", 1) :=
  (structured_runner_no_partial_output (.err "handler raised")).1 "handler raised" rfl

/-- Claim C5: the plain-text runner joins a returned sequence with single
ASCII spaces in order and writes a single returned string verbatim, with
no envelope; in particular ["abc", "def"] gives "abc def" and "abc" gives
"abc". -/
theorem plain_text_runner_output :
    (∀ xs, external_script (.ok (.many xs)) = (String.intercalate " " xs, 0)) ∧
    (∀ s, external_script (.ok (.single s)) = (s, 0)) ∧
    external_script (.ok (.many ["abc", "def"])) = ("abc def", 0) ∧
    external_script (.ok (.single "abc")) = ("abc", 0) :=
  ⟨fun _ => rfl, fun _ => rfl, rfl, rfl⟩

/-- Claim C6: an icon populates exactly one of its two variants, and each
variant encodes only its own shape — the type-descriptor shape never
carries the by-file "path" field, the two encoded shapes are never equal,
and each variant's key list is exactly its own. -/
theorem icon_variants_mutually_exclusive :
    (∀ i : Icon, ((∃ t, i = .uti t) ∨ (∃ p, i = .file_icon p)) ∧
                 ¬((∃ t, i = .uti t) ∧ (∃ p, i = .file_icon p))) ∧
    (∀ t, jKeys (encodeIconObj (.uti t)) = ["type"] ∧
          "path" ∉ jKeys (encodeIconObj (.uti t))) ∧
    (∀ p, jKeys (encodeIconObj (.file_icon p)) = ["path", "type"]) ∧
    (∀ t p, encodeIcon (.uti t) ≠ encodeIcon (.file_icon p)) := by
  refine ⟨fun i => ⟨?_, ?_⟩, fun t => ⟨rfl, by simp [encodeIconObj, jKeys]⟩,
          fun p => rfl, fun t p => ?_⟩
  · cases i with
    | uti t => exact Or.inl ⟨t, rfl⟩
    | file_icon p => exact Or.inr ⟨p, rfl⟩
  · rintro ⟨⟨t, ht⟩, ⟨p, hp⟩⟩
    subst ht
    exact Icon.noConfusion hp
  · intro h
    simp [encodeIcon, encodeIconObj] at h

/-- Witness for Claim C6 at the icons of the serialisation test: the two
encoded shapes differ. -/
theorem icon_variants_mutually_exclusive_witness :
    encodeIcon (.uti "public.jpeg") ≠
      encodeIcon (.file_icon "/System/Applications/Calendar.app") :=
  icon_variants_mutually_exclusive.2.2.2 "public.jpeg" "/System/Applications/Calendar.app"

/-- Claim C7: the encoder is a deterministic function of the envelope value
alone — equal inputs give byte-identical rendered output. -/
theorem encoder_deterministic :
    ∀ o₁ o₂ : ScriptFilterOutput, o₁ = o₂ →
      render (encodeOutput o₁) = render (encodeOutput o₂) := by
  intro o₁ o₂ h
  rw [h]

/-- Witness for Claim C7 at a concrete envelope. -/
theorem encoder_deterministic_witness :
    render (encodeOutput { items := [{ title := "Hello Alfred!" }] }) =
      render (encodeOutput { items := [{ title := "Hello Alfred!" }] }) :=
  encoder_deterministic { items := [{ title := "Hello Alfred!" }] }
    { items := [{ title := "Hello Alfred!" }] } rfl

/-- Claim C8: snapshot construction never fails — the empty environment
yields all-absent defaults (false debug, empty strings, paths built from
the raw empty string), and every set variable is passed through to its
field unmodified. -/
theorem environment_degrades_gracefully :
    (makeEnvironment [] =
      { debug := false, preferences_file := "", preferences_localhash := "",
        version := "", version_build := "", workflow_name := "",
        workflow_version := "", workflow_bundleid := "", workflow_uid := "",
        workflow_cache := "", workflow_data := "", theme := "",
        theme_background := "", theme_selection_background := "",
        theme_subtext := "", workflow_description := "",
        workflow_keyword := "" }) ∧
    (∀ (e : List (String × String)) (v : String),
      (e.lookup "alfred_preferences" = some v →
        (makeEnvironment e).preferences_file = v) ∧
      (e.lookup "alfred_preferences_localhash" = some v →
        (makeEnvironment e).preferences_localhash = v) ∧
      (e.lookup "alfred_version" = some v → (makeEnvironment e).version = v) ∧
      (e.lookup "alfred_version_build" = some v →
        (makeEnvironment e).version_build = v) ∧
      (e.lookup "alfred_workflow_name" = some v →
        (makeEnvironment e).workflow_name = v) ∧
      (e.lookup "alfred_workflow_version" = some v →
        (makeEnvironment e).workflow_version = v) ∧
      (e.lookup "alfred_workflow_bundleid" = some v →
        (makeEnvironment e).workflow_bundleid = v) ∧
      (e.lookup "alfred_workflow_uid" = some v →
        (makeEnvironment e).workflow_uid = v) ∧
      (e.lookup "alfred_workflow_cache" = some v →
        (makeEnvironment e).workflow_cache = v) ∧
      (e.lookup "alfred_workflow_data" = some v →
        (makeEnvironment e).workflow_data = v) ∧
      (e.lookup "alfred_theme" = some v → (makeEnvironment e).theme = v) ∧
      (e.lookup "alfred_theme_background" = some v →
        (makeEnvironment e).theme_background = v) ∧
      (e.lookup "alfred_theme_selection_background" = some v →
        (makeEnvironment e).theme_selection_background = v) ∧
      (e.lookup "alfred_theme_subtext" = some v →
        (makeEnvironment e).theme_subtext = v) ∧
      (e.lookup "alfred_workflow_description" = some v →
        (makeEnvironment e).workflow_description = v) ∧
      (e.lookup "alfred_workflow_keyword" = some v →
        (makeEnvironment e).workflow_keyword = v)) := by
  refine ⟨rfl, fun e v =>
    ⟨?_, ?_, ?_, ?_, ?_, ?_, ?_, ?_, ?_, ?_, ?_, ?_, ?_, ?_, ?_, ?_⟩⟩ <;>
    (intro h; simp [makeEnvironment, h])

/-- Witness for Claim C8 at a concrete environment: a set workflow name is
passed through unmodified. -/
theorem environment_degrades_gracefully_witness :
    (makeEnvironment [("alfred_workflow_name", "Google Suggest")]).workflow_name =
      "Google Suggest" :=
  (environment_degrades_gracefully.2
    [("alfred_workflow_name", "Google Suggest")] "Google Suggest").2.2.2.2.1 rfl

/-- Claim C9: when `Workflow/info.plist` does not exist under the current
working directory, the project-root guard exits with code 1 and never runs
the wrapped body, leaving the state untouched; the six commands link,
vendor, package, version, name and show-link are exactly this guard around
their bodies, and release is `_ensure_no_local_changes` around the guarded
body, which equally exits 1 with the body never invoked. -/
theorem guard_exits_before_body_without_plist :
    ∀ (fn : CliState → CmdOutcome × CliState) (s : CliState),
      s.fileExists (info_plist_path s) = false →
      must_be_run_from_workflow_project_root fn s = (.exited 1, s) ∧
      ensure_no_local_changes (must_be_run_from_workflow_project_root fn) s =
        (.exited 1, s) := by
  intro fn s h
  refine ⟨by simp [must_be_run_from_workflow_project_root, h], ?_⟩
  cases hd : s.gitDirty <;>
    simp [ensure_no_local_changes, must_be_run_from_workflow_project_root, h, hd]

/-- Witness for Claim C9 at a concrete state with no `info.plist` and a
body that would complete if it ran. -/
theorem guard_exits_before_body_without_plist_witness :
    must_be_run_from_workflow_project_root (fun s => (.completed, s))
      ⟨"/tmp/proj", fun _ => false, false⟩ =
      (.exited 1, ⟨"/tmp/proj", fun _ => false, false⟩) :=
  (guard_exits_before_body_without_plist (fun s => (.completed, s))
    ⟨"/tmp/proj", fun _ => false, false⟩ rfl).1

/-- Claim C10: with `relink` false, `_link` on a workflow directory that
already has a symlink returns the workflows directory unchanged, and
running `_link` twice with the default options (relink and same-path both
false) leaves the directory exactly as after the first run. -/
theorem link_noop_when_linked_and_idempotent :
    (∀ (sp : Bool) (ws : List DirEntry) (wfDir f : String),
      (find_workflow_link wfDir ws).isSome →
      _link false sp true true wfDir f ws = .ok ws) ∧
    (∀ (ws ws' : List DirEntry) (wfDir f g : String),
      _link false false true true wfDir f ws = .ok ws' →
      _link false false true true wfDir g ws' = .ok ws') := by
  constructor
  · intro sp ws wfDir f h
    obtain ⟨e, he⟩ := Option.isSome_iff_exists.mp h
    simp [_link, he]
  · intro ws ws' wfDir f g h
    cases hf : find_workflow_link wfDir ws with
    | some e =>
      simp [_link, hf] at h
      subst h
      simp [_link, hf]
    | none =>
      simp [_link, hf] at h
      subst h
      have hfind : find_workflow_link wfDir
          (ws ++ [⟨"user.workflow." ++ f, some wfDir⟩]) =
          some ⟨"user.workflow." ++ f, some wfDir⟩ := by
        simp [find_workflow_link, List.find?_append]
        simp [find_workflow_link] at hf
        exact Or.inr hf
      simp [_link, hfind]

/-- Witness for Claim C10 at a concrete directory that already links the
workflow: `_link` with default options changes nothing. -/
theorem link_noop_when_linked_and_idempotent_witness :
    _link false false true true "/proj/Workflow" "FRESH"
      [⟨"user.workflow.OLD", some "/proj/Workflow"⟩] =
      .ok [⟨"user.workflow.OLD", some "/proj/Workflow"⟩] :=
  link_noop_when_linked_and_idempotent.1 false
    [⟨"user.workflow.OLD", some "/proj/Workflow"⟩] "/proj/Workflow" "FRESH" rfl

end Pyfred
